import Mathlib

/-!
Verification of the Hausa TTS comparison app (src/app.py): base64
normalization, provider adapters, session state and history store.

The Python source is shallowly embedded: bytes are `List Nat` (each < 256),
external network/library calls are abstracted by an explicit outcome
parameter, and the Streamlit session state is an explicit `AppState`
record threaded through the button handlers.
-/

/-- The standard base64 alphabet, as used by Python's `base64.b64encode`. -/
def b64Alphabet : List Char :=
  "ABCDEFGHIJKLMNOPQRSTUVWXYZabcdefghijklmnopqrstuvwxyz0123456789+/".toList

/-- Character for a 6-bit group (models the encode table lookup). -/
def sextetChar (n : Nat) : Char := b64Alphabet.getD n 'A'

/-- Index of a character in the base64 alphabet (models the decode table). -/
def charSextet (c : Char) : Option Nat := b64Alphabet.findIdx? (fun x => x = c)

/-- Embeds `base64.b64encode` on a byte list, producing the character list of the
base64 text (3 bytes to 4 characters, with `=` padding). -/
def b64encodeList : List Nat → List Char
  | [] => []
  | [a] => [sextetChar (a / 4), sextetChar (a % 4 * 16), '=', '=']
  | [a, b] => [sextetChar (a / 4), sextetChar (a % 4 * 16 + b / 16),
               sextetChar (b % 16 * 4), '=']
  | a :: b :: c :: rest =>
      sextetChar (a / 4) :: sextetChar (a % 4 * 16 + b / 16) ::
      sextetChar (b % 16 * 4 + c / 64) :: sextetChar (c % 64) ::
      b64encodeList rest

/-- Embeds `base64.b64encode(...).decode('utf-8')`: bytes to base64 text. -/
def b64encode (bs : List Nat) : String := String.mk (b64encodeList bs)

/-- Embeds `base64.b64decode` on a character list restricted to alphabet characters
and trailing `=` padding; `none` models a raised `binascii.Error`.  As in
Python, the unused low bits of the final sextet before padding are discarded
without validation. -/
def b64decodeList : List Char → Option (List Nat)
  | [] => some []
  | c1 :: c2 :: c3 :: c4 :: rest =>
      match charSextet c1, charSextet c2 with
      | some a, some b =>
          if c3 = '=' ∧ c4 = '=' ∧ rest = [] then
            some [a * 4 + b / 16]
          else if c4 = '=' ∧ rest = [] then
            match charSextet c3 with
            | some c => some [a * 4 + b / 16, b % 16 * 16 + c / 4]
            | none => none
          else
            match charSextet c3, charSextet c4 with
            | some c, some d =>
                (b64decodeList rest).map
                  (fun t => (a * 4 + b / 16) :: (b % 16 * 16 + c / 4) ::
                            (c % 4 * 64 + d) :: t)
            | _, _ => none
      | _, _ => none
  | _ => none

/-- Embeds `base64.b64decode` on a string. -/
def b64decode (s : String) : Option (List Nat) := b64decodeList s.data

/-- Every 6-bit value decodes back through the alphabet table. -/
theorem charSextet_sextetChar : ∀ n < 64, charSextet (sextetChar n) = some n := by
  decide

/-- Padding is not an alphabet character. -/
theorem charSextet_eq : charSextet '=' = none := by decide

theorem sextetChar_ne_eq {n : Nat} (h : n < 64) : sextetChar n ≠ '=' := by
  intro hc
  have := charSextet_sextetChar n h
  rw [hc, charSextet_eq] at this
  exact Option.noConfusion this

/-- Decoding inverts encoding on genuine byte lists. -/
theorem b64decodeList_encodeList (bs : List Nat) (hb : ∀ b ∈ bs, b < 256) :
    b64decodeList (b64encodeList bs) = some bs := by
  induction bs using b64encodeList.induct with
  | case1 => simp [b64encodeList, b64decodeList]
  | case2 a =>
      have ha : a < 256 := hb a (by simp)
      have h1 : a / 4 < 64 := by omega
      have h2 : a % 4 * 16 < 64 := by omega
      simp only [b64encodeList, b64decodeList,
        charSextet_sextetChar _ h1, charSextet_sextetChar _ h2]
      split
      · simp only [Option.some.injEq, List.cons.injEq, and_true]
        omega
      · next hcon => exact absurd (by simp) hcon
  | case3 a b =>
      have ha : a < 256 := hb a (by simp)
      have hbb : b < 256 := hb b (by simp)
      have h1 : a / 4 < 64 := by omega
      have h2 : a % 4 * 16 + b / 16 < 64 := by omega
      have h3 : b % 16 * 4 < 64 := by omega
      simp only [b64encodeList, b64decodeList,
        charSextet_sextetChar _ h1, charSextet_sextetChar _ h2,
        charSextet_sextetChar _ h3]
      split
      · next hcon => exact absurd hcon.1 (sextetChar_ne_eq h3)
      · split
        · simp only [Option.some.injEq, List.cons.injEq, and_true]
          constructor
          · omega
          · omega
        · next hcon => exact absurd (by simp) hcon
  | case4 a b c rest ih =>
      have ha : a < 256 := hb a (by simp)
      have hbb : b < 256 := hb b (by simp)
      have hc : c < 256 := hb c (by simp)
      have h1 : a / 4 < 64 := by omega
      have h2 : a % 4 * 16 + b / 16 < 64 := by omega
      have h3 : b % 16 * 4 + c / 64 < 64 := by omega
      have h4 : c % 64 < 64 := by omega
      have ihr := ih (fun x hx => hb x (by simp [hx]))
      simp only [b64encodeList, b64decodeList,
        charSextet_sextetChar _ h1, charSextet_sextetChar _ h2,
        charSextet_sextetChar _ h3, charSextet_sextetChar _ h4]
      split
      · next hcon => exact absurd hcon.1 (sextetChar_ne_eq h3)
      · split
        · next hcon => exact absurd hcon.1 (sextetChar_ne_eq h4)
        · rw [ihr]
          simp only [Option.map_some', Option.some.injEq, List.cons.injEq, and_true]
          refine ⟨by omega, by omega, by omega⟩

/-- Decoding inverts encoding, on strings. -/
theorem b64decode_b64encode (bs : List Nat) (hb : ∀ b ∈ bs, b < 256) :
    b64decode (b64encode bs) = some bs := by
  simpa [b64decode, b64encode] using b64decodeList_encodeList bs hb

/-- Substring test on character lists (used to state that an error message
"carries" a status code or body text). -/
def startsWithList : List Char → List Char → Bool
  | [], _ => true
  | _ :: _, [] => false
  | a :: as, b :: bs => a = b && startsWithList as bs

/-- Tests whether `needle` occurs somewhere inside `hay`. -/
def hasSub (needle : List Char) : List Char → Bool
  | [] => startsWithList needle []
  | c :: t => startsWithList needle (c :: t) || hasSub needle t

theorem startsWithList_append (n r : List Char) :
    startsWithList n (n ++ r) = true := by
  induction n with
  | nil => rfl
  | cons a as ih => simp [startsWithList, ih]

theorem hasSub_of_startsWithList (n hay : List Char)
    (h : startsWithList n hay = true) : hasSub n hay = true := by
  cases hay with
  | nil => simpa [hasSub] using h
  | cons c t => simp [hasSub, h]

/-- A needle occurs in any list that embeds it between a prefix part and a
suffix part. -/
theorem hasSub_embed (p n s : List Char) : hasSub n (p ++ n ++ s) = true := by
  induction p with
  | nil =>
      exact hasSub_of_startsWithList _ _ (startsWithList_append n s)
  | cons c t ih =>
      simp only [List.cons_append, hasSub, Bool.or_eq_true]
      right
      simpa [List.append_assoc] using ih

/-! ## Data model of the Streamlit session (src/app.py lines 20-28, 108-128) -/

/-- One "current generation" dict as stored in
`st.session_state.current_spitch_audio` / `current_awarri_audio`
(src/app.py lines 188-193 and 204-209). -/
structure CurrentAudio where
  audio_base64 : String
  latency : Rat
  text : String
  voice : Option String
  deriving Repr, DecidableEq

/-- One history dict as built by `add_to_history` (src/app.py lines 110-117).
Python's `None` voice is `none`; a string voice is `some`. -/
structure HistoryEntry where
  timestamp : String
  text : String
  model : String
  voice : Option String
  audio_base64 : String
  latency : Rat
  deriving Repr, DecidableEq

/-- The session state relevant to the coordination core:
`audio_history`, `current_spitch_audio`, `current_awarri_audio`
(src/app.py lines 20-28). -/
structure AppState where
  audio_history : List HistoryEntry
  current_spitch_audio : Option CurrentAudio
  current_awarri_audio : Option CurrentAudio
  deriving Repr, DecidableEq

/-- Initial session state (src/app.py lines 21-28). -/
def initState : AppState :=
  { audio_history := [], current_spitch_audio := none, current_awarri_audio := none }

/-- Python truthiness of a `str | None` value: `None` and `""` are falsy. -/
def pyTruthyOptStr : Option String → Bool
  | none => false
  | some s => !(s = "")

/-! ## Spitch adapter (src/app.py lines 40-64) -/

/-- Arguments of the `client.speech.generate` call (src/app.py lines 48-52). -/
structure SpitchRequest where
  text : String
  language : String
  voice : String
  deriving Repr, DecidableEq

/-- Outcome of the external Spitch client interaction, abstracting the
network: the client failed to initialize (`initialize_spitch` returned
`None`), the library raised, or the response stream was drained to bytes. -/
inductive SpitchCallOutcome where
  | clientInitFailed
  | raised (msg : String)
  | responseBytes (audio_bytes : List Nat)
  deriving Repr, DecidableEq

/-- Value returned by a generation function together with the `st.error`
message it displayed (if any) and the provider request it issued (if any). -/
structure SpitchReturn where
  audio_base64 : Option String
  latency : Rat
  error_message : Option String
  request : Option SpitchRequest
  deriving Repr, DecidableEq

/-- Models Python's `str.lower()` for the ASCII voice names, written so that
it evaluates inside the kernel. -/
def pyLower (s : String) : String := String.mk (s.data.map Char.toLower)

/-- Embeds `generate_spitch_audio` (src/app.py lines 40-64).  `elapsed` is the
wall-clock latency measured around the call; the init-failure message is
displayed inside `initialize_spitch`, not by this function. -/
def generate_spitch_audio (text voice : String) (outcome : SpitchCallOutcome)
    (elapsed : Rat) : SpitchReturn :=
  match outcome with
  | .clientInitFailed =>
      { audio_base64 := none, latency := 0, error_message := none,
        request := none }
  | .raised msg =>
      { audio_base64 := none, latency := 0,
        error_message := some ("Spitch generation failed: " ++ msg),
        request := some { text := text, language := "ha", voice := pyLower voice } }
  | .responseBytes bs =>
      { audio_base64 := some (b64encode bs), latency := elapsed,
        error_message := none,
        request := some { text := text, language := "ha", voice := pyLower voice } }

/-! ## Awarri adapter (src/app.py lines 66-106) -/

/-- The single POST issued by `generate_awarri_audio`: URL, headers
(src/app.py lines 76-79) and the three JSON body fields (lines 81-85). -/
structure AwarriRequest where
  url : String
  headers : List (String × String)
  api_key : String
  audio_txt : String
  lang : String
  deriving Repr, DecidableEq

/-- An HTTP response as observed by the handler: status code, body text, and
the `base64_data` field of the parsed JSON body when present. -/
structure HttpResponse where
  status_code : Nat
  text : String
  base64_data : Option String
  deriving Repr, DecidableEq

/-- Outcome of the POST, abstracting the network: the transport (or JSON
parsing) raised, or a response arrived. -/
inductive AwarriCallOutcome where
  | raised (msg : String)
  | response (r : HttpResponse)
  deriving Repr, DecidableEq

structure AwarriReturn where
  audio_base64 : Option String
  latency : Rat
  error_message : Option String
  request : Option AwarriRequest
  deriving Repr, DecidableEq

/-- Embeds `generate_awarri_audio` (src/app.py lines 66-106).  `url` and `api_key`
model `os.getenv`; the `request` field is `some` exactly when `requests.post`
was invoked. -/
def generate_awarri_audio (url api_key : Option String) (text : String)
    (outcome : AwarriCallOutcome) (elapsed : Rat) : AwarriReturn :=
  if !pyTruthyOptStr url || !pyTruthyOptStr api_key then
    { audio_base64 := none, latency := 0,
      error_message := some "Awarri API credentials not configured",
      request := none }
  else
    let req : AwarriRequest :=
      { url := url.getD "",
        headers := [("accept", "application/json"),
                    ("Content-Type", "application/json")],
        api_key := api_key.getD "", audio_txt := text, lang := "hausa" }
    match outcome with
    | .raised msg =>
        { audio_base64 := none, latency := 0,
          error_message := some ("Awarri generation failed: " ++ msg),
          request := some req }
    | .response r =>
        if r.status_code = 200 then
          match r.base64_data with
          | some b64 =>
              { audio_base64 := some b64, latency := elapsed,
                error_message := none, request := some req }
          | none =>
              { audio_base64 := none, latency := 0,
                error_message := some "No 'base64_data' in Awarri response",
                request := some req }
        else
          { audio_base64 := none, latency := 0,
            error_message := some ("Awarri API error: " ++
              toString r.status_code ++ " - " ++ r.text),
            request := some req }

/-! ## History store, session-state operations and button handlers
(src/app.py lines 108-123, 181-210, 228-258) -/

/-- Embeds `add_to_history` (src/app.py lines 108-118): builds the entry dict and
`insert(0, ...)`s it.  `now` models `datetime.now().strftime(...)`. -/
def add_to_history (s : AppState) (text model : String) (voice : Option String)
    (audio_base64 : String) (latency : Rat) (now : String) : AppState :=
  { s with audio_history :=
      { timestamp := now, text := text, model := model, voice := voice,
        audio_base64 := audio_base64, latency := latency } :: s.audio_history }

/-- Embeds `clear_current_display` (src/app.py lines 120-123). -/
def clear_current_display (s : AppState) : AppState :=
  { s with current_spitch_audio := none, current_awarri_audio := none }

/-- Models Python's `str.strip()` (whitespace on both ends), written with
structural recursion so that it evaluates inside the kernel. -/
def pyStrip (s : String) : String :=
  String.mk (((s.data.dropWhile Char.isWhitespace).reverse.dropWhile
    Char.isWhitespace).reverse)

/-- Embeds `display_audio_from_base64` (src/app.py lines 125-128): the only place
the stored base64 text is decoded back to bytes, at playback time. -/
def display_audio_from_base64 (audio_base64 : String) : Option (List Nat) :=
  b64decode audio_base64

/-- The "Generate with Spitch" button handler (src/app.py lines 181-194):
reject blank text, call the adapter, and store the result dict in the
session slot only when the returned `audio_base64` is truthy. -/
def spitch_button_step (s : AppState) (text_input voice_selection : String)
    (outcome : SpitchCallOutcome) (elapsed : Rat) : AppState :=
  if pyStrip text_input = "" then s
  else
    let r := generate_spitch_audio text_input voice_selection outcome elapsed
    if pyTruthyOptStr r.audio_base64 then
      let d : CurrentAudio :=
        { audio_base64 := r.audio_base64.getD "", latency := r.latency,
          text := text_input, voice := some voice_selection }
      { s with current_spitch_audio := some d }
    else s

/-- The "Generate with Awarri" button handler (src/app.py lines 197-210);
the stored dict carries `voice: None`. -/
def awarri_button_step (s : AppState) (url api_key : Option String)
    (text_input : String) (outcome : AwarriCallOutcome) (elapsed : Rat) : AppState :=
  if pyStrip text_input = "" then s
  else
    let r := generate_awarri_audio url api_key text_input outcome elapsed
    if pyTruthyOptStr r.audio_base64 then
      let d : CurrentAudio :=
        { audio_base64 := r.audio_base64.getD "", latency := r.latency,
          text := text_input, voice := none }
      { s with current_awarri_audio := some d }
    else s

/-- The Spitch "Save to History" button (src/app.py lines 228-237); only
rendered when the slot is populated. -/
def save_spitch_step (s : AppState) (now : String) : AppState :=
  match s.current_spitch_audio with
  | none => s
  | some d => add_to_history s d.text "Spitch AI" d.voice d.audio_base64 d.latency now

/-- The Awarri "Save to History" button (src/app.py lines 249-258); note the
literal voice string "Default" passed at line 253. -/
def save_awarri_step (s : AppState) (now : String) : AppState :=
  match s.current_awarri_audio with
  | none => s
  | some d => add_to_history s d.text "Awarri" (some "Default") d.audio_base64 d.latency now

/-- One user interaction on the session state. -/
inductive Step : AppState → AppState → Prop where
  | spitchGen (s : AppState) (text voice : String) (outcome : SpitchCallOutcome)
      (elapsed : Rat) : Step s (spitch_button_step s text voice outcome elapsed)
  | awarriGen (s : AppState) (url api_key : Option String) (text : String)
      (outcome : AwarriCallOutcome) (elapsed : Rat) :
      Step s (awarri_button_step s url api_key text outcome elapsed)
  | saveSpitch (s : AppState) (now : String) : Step s (save_spitch_step s now)
  | saveAwarri (s : AppState) (now : String) : Step s (save_awarri_step s now)
  | clear (s : AppState) : Step s (clear_current_display s)

/-- Session states reachable from the initial state by user interactions. -/
inductive Reachable : AppState → Prop where
  | init : Reachable initState
  | step {s s' : AppState} : Reachable s → Step s s' → Reachable s'

/-- Voice-field shape of every result held by the session: the Spitch slot
has a non-null voice, the Awarri slot a null voice, and history entries
carry a non-null voice for Spitch and the literal "Default" for Awarri. -/
def voice_invariant (s : AppState) : Prop :=
  (∀ d ∈ s.current_spitch_audio, d.voice ≠ none) ∧
  (∀ d ∈ s.current_awarri_audio, d.voice = none) ∧
  (∀ e ∈ s.audio_history,
    (e.model = "Spitch AI" → e.voice ≠ none) ∧
    (e.model = "Awarri" → e.voice = some "Default"))

/-! ## Helper lemmas on the handlers -/

/-- A generation failure leaves the Spitch handler state unchanged. -/
theorem spitch_step_fail (s : AppState) (text voice : String)
    (o : SpitchCallOutcome) (e : Rat)
    (h : (generate_spitch_audio text voice o e).audio_base64 = none) :
    spitch_button_step s text voice o e = s := by
  unfold spitch_button_step
  split
  · rfl
  · simp [h, pyTruthyOptStr]

/-- A generation failure leaves the Awarri handler state unchanged. -/
theorem awarri_step_fail (s : AppState) (url key : Option String) (text : String)
    (o : AwarriCallOutcome) (e : Rat)
    (h : (generate_awarri_audio url key text o e).audio_base64 = none) :
    awarri_button_step s url key text o e = s := by
  unfold awarri_button_step
  split
  · rfl
  · simp [h, pyTruthyOptStr]

/-! ## Claim theorems -/

/-- C3: `add_to_history` inserts at index 0, so after saving entries for
(t1, ...) then (t2, ...) into an arbitrary prior history, the history reads
the second entry first, then the first, then all prior entries in their
previous order. -/
theorem history_save_newest_first (s : AppState)
    (t1 m1 : String) (v1 : Option String) (a1 : String) (l1 : Rat) (n1 : String)
    (t2 m2 : String) (v2 : Option String) (a2 : String) (l2 : Rat) (n2 : String) :
    (add_to_history (add_to_history s t1 m1 v1 a1 l1 n1) t2 m2 v2 a2 l2 n2).audio_history =
      { timestamp := n2, text := t2, model := m2, voice := v2,
        audio_base64 := a2, latency := l2 } ::
      { timestamp := n1, text := t1, model := m1, voice := v1,
        audio_base64 := a1, latency := l1 } :: s.audio_history := rfl

/-- C10: `clear_current_display` empties both current slots and leaves the
history untouched. -/
theorem clear_empties_slots_keeps_history (s : AppState) :
    (clear_current_display s).current_spitch_audio = none ∧
    (clear_current_display s).current_awarri_audio = none ∧
    (clear_current_display s).audio_history = s.audio_history :=
  ⟨rfl, rfl, rfl⟩

/-- C1: when a generation fails (the adapter returned `None`), the handler
for that provider leaves its session slot with its previous value and adds
nothing to the history. -/
theorem generation_failure_preserves_session (s : AppState)
    (text voice : String) (so : SpitchCallOutcome) (e1 : Rat)
    (url key : Option String) (ao : AwarriCallOutcome) (e2 : Rat)
    (hs : (generate_spitch_audio text voice so e1).audio_base64 = none)
    (ha : (generate_awarri_audio url key text ao e2).audio_base64 = none) :
    (spitch_button_step s text voice so e1).current_spitch_audio =
        s.current_spitch_audio ∧
    (spitch_button_step s text voice so e1).audio_history = s.audio_history ∧
    (awarri_button_step s url key text ao e2).current_awarri_audio =
        s.current_awarri_audio ∧
    (awarri_button_step s url key text ao e2).audio_history = s.audio_history := by
  rw [spitch_step_fail s text voice so e1 hs, awarri_step_fail s url key text ao e2 ha]
  exact ⟨rfl, rfl, rfl, rfl⟩

/-- C1 witness: a Spitch library exception and an Awarri 500 after a prior
Spitch success leave the populated slot and the history as they were. -/
theorem generation_failure_preserves_session_witness :
    ((spitch_button_step
        { audio_history := [],
          current_spitch_audio :=
            some { audio_base64 := "QQ==", latency := 1, text := "sannu",
                   voice := some "Hasan" },
          current_awarri_audio := none }
        "sannu" "Hasan" (SpitchCallOutcome.raised "boom") 2).current_spitch_audio =
      some { audio_base64 := "QQ==", latency := 1, text := "sannu",
             voice := some "Hasan" }) ∧
    ((awarri_button_step
        { audio_history := [],
          current_spitch_audio :=
            some { audio_base64 := "QQ==", latency := 1, text := "sannu",
                   voice := some "Hasan" },
          current_awarri_audio := none }
        (some "http://endpoint") (some "key") "sannu"
        (AwarriCallOutcome.response
          { status_code := 500, text := "internal error", base64_data := none })
        2).audio_history = []) := by
  have h := generation_failure_preserves_session
    { audio_history := [],
      current_spitch_audio :=
        some { audio_base64 := "QQ==", latency := 1, text := "sannu",
               voice := some "Hasan" },
      current_awarri_audio := none }
    "sannu" "Hasan" (SpitchCallOutcome.raised "boom") 2
    (some "http://endpoint") (some "key")
    (AwarriCallOutcome.response
      { status_code := 500, text := "internal error", base64_data := none })
    2 rfl rfl
  exact ⟨h.1, h.2.2.2⟩

/-- C5: with the endpoint URL or the API key missing (falsy), the Awarri
generation reports the configuration error, produces no audio, and issues no
POST at all. -/
theorem awarri_no_config_no_network (url key : Option String) (text : String)
    (o : AwarriCallOutcome) (e : Rat)
    (h : pyTruthyOptStr url = false ∨ pyTruthyOptStr key = false) :
    (generate_awarri_audio url key text o e).request = none ∧
    (generate_awarri_audio url key text o e).error_message =
      some "Awarri API credentials not configured" ∧
    (generate_awarri_audio url key text o e).audio_base64 = none := by
  unfold generate_awarri_audio
  rcases h with h | h <;> simp [h]

/-- C5 witness: with no URL configured the call makes no POST. -/
theorem awarri_no_config_no_network_witness :
    (generate_awarri_audio none (some "key") "sannu"
        (AwarriCallOutcome.response
          { status_code := 200, text := "", base64_data := some "QQ==" }) 1).request =
      none ∧
    (generate_awarri_audio none (some "key") "sannu"
        (AwarriCallOutcome.response
          { status_code := 200, text := "", base64_data := some "QQ==" }) 1).error_message =
      some "Awarri API credentials not configured" ∧
    (generate_awarri_audio none (some "key") "sannu"
        (AwarriCallOutcome.response
          { status_code := 200, text := "", base64_data := some "QQ==" }) 1).audio_base64 =
      none :=
  awarri_no_config_no_network none (some "key") "sannu"
    (AwarriCallOutcome.response
      { status_code := 200, text := "", base64_data := some "QQ==" }) 1
    (Or.inl rfl)

/-- C4 (amended): a non-200 Awarri response yields an error whose displayed
message carries the status code and the body text, and a 200 response
missing `base64_data` yields an error with a fixed message (which does not
quote the status or body); in both cases no audio result is produced. -/
theorem awarri_error_diagnostics (url key : Option String) (text : String)
    (r : HttpResponse) (e : Rat)
    (hurl : pyTruthyOptStr url = true) (hkey : pyTruthyOptStr key = true) :
    (r.status_code ≠ 200 →
      (generate_awarri_audio url key text (AwarriCallOutcome.response r) e).audio_base64 =
        none ∧
      (generate_awarri_audio url key text (AwarriCallOutcome.response r) e).error_message =
        some ("Awarri API error: " ++ toString r.status_code ++ " - " ++ r.text) ∧
      hasSub (toString r.status_code).data
        ("Awarri API error: " ++ toString r.status_code ++ " - " ++ r.text).data = true ∧
      hasSub r.text.data
        ("Awarri API error: " ++ toString r.status_code ++ " - " ++ r.text).data = true) ∧
    (r.status_code = 200 → r.base64_data = none →
      (generate_awarri_audio url key text (AwarriCallOutcome.response r) e).audio_base64 =
        none ∧
      (generate_awarri_audio url key text (AwarriCallOutcome.response r) e).error_message =
        some "No 'base64_data' in Awarri response") := by
  constructor
  · intro hne
    refine ⟨?_, ?_, ?_, ?_⟩
    · simp [generate_awarri_audio, hurl, hkey, hne]
    · simp [generate_awarri_audio, hurl, hkey, hne]
    · have := hasSub_embed ("Awarri API error: ").data (toString r.status_code).data
        (" - " ++ r.text).data
      simpa [String.data_append, List.append_assoc] using this
    · have := hasSub_embed
        ("Awarri API error: " ++ toString r.status_code ++ " - ").data r.text.data []
      simpa [String.data_append, List.append_assoc] using this
  · intro h200 hmiss
    constructor
    · simp [generate_awarri_audio, hurl, hkey, h200, hmiss]
    · simp [generate_awarri_audio, hurl, hkey, h200, hmiss]

/-- C4 witness: a 500 response with body "internal error" produces the
diagnostic error message and no audio. -/
theorem awarri_error_diagnostics_witness :
    (generate_awarri_audio (some "http://endpoint") (some "key") "sannu"
        (AwarriCallOutcome.response
          { status_code := 500, text := "internal error", base64_data := none })
        1).audio_base64 = none ∧
    (generate_awarri_audio (some "http://endpoint") (some "key") "sannu"
        (AwarriCallOutcome.response
          { status_code := 500, text := "internal error", base64_data := none })
        1).error_message =
      some ("Awarri API error: " ++ toString (500 : Nat) ++ " - " ++ "internal error") ∧
    hasSub (toString (500 : Nat)).data
      ("Awarri API error: " ++ toString (500 : Nat) ++ " - " ++ "internal error").data =
      true ∧
    hasSub "internal error".data
      ("Awarri API error: " ++ toString (500 : Nat) ++ " - " ++ "internal error").data =
      true :=
  (awarri_error_diagnostics (some "http://endpoint") (some "key") "sannu"
      { status_code := 500, text := "internal error", base64_data := none } 1
      rfl rfl).1 (by decide)

/-- C4 counterexample: the error for a 200 response that lacks `base64_data`
does not carry the status code or the body text, contradicting the claim
that it "also" carries both for diagnostics. -/
theorem awarri_missing_field_lacks_diagnostics :
    (generate_awarri_audio (some "http://endpoint") (some "key") "sannu"
        (AwarriCallOutcome.response
          { status_code := 200, text := "BODY", base64_data := none })
        1).error_message = some "No 'base64_data' in Awarri response" ∧
    hasSub "200".data "No 'base64_data' in Awarri response".data = false ∧
    hasSub "BODY".data "No 'base64_data' in Awarri response".data = false := by
  refine ⟨by decide, by decide, by decide⟩

/-- C6: successful audio is stored as base64 text: the Spitch adapter's raw
bytes are base64-encoded before storage, the Awarri adapter's base64 string
is stored unchanged, and the stored text is decoded to bytes only by the
playback helper, which recovers exactly the adapter's raw bytes. -/
theorem audio_stored_as_base64 (text voice : String) (bs : List Nat) (e : Rat)
    (url key : Option String) (body b64 : String) (e2 : Rat)
    (hb : ∀ b ∈ bs, b < 256)
    (hurl : pyTruthyOptStr url = true) (hkey : pyTruthyOptStr key = true) :
    (generate_spitch_audio text voice (SpitchCallOutcome.responseBytes bs) e).audio_base64 =
      some (b64encode bs) ∧
    (generate_awarri_audio url key text
        (AwarriCallOutcome.response
          { status_code := 200, text := body, base64_data := some b64 }) e2).audio_base64 =
      some b64 ∧
    display_audio_from_base64 (b64encode bs) = some bs := by
  refine ⟨rfl, ?_, ?_⟩
  · simp [generate_awarri_audio, hurl, hkey]
  · exact b64decode_b64encode bs hb

/-- C6 witness: bytes 72, 97 are stored as "SGE=" by Spitch, the Awarri
string "SGE=" is stored verbatim, and playback decodes back to 72, 97. -/
theorem audio_stored_as_base64_witness :
    (generate_spitch_audio "sannu" "Hasan"
        (SpitchCallOutcome.responseBytes [72, 97]) 1).audio_base64 =
      some (b64encode [72, 97]) ∧
    (generate_awarri_audio (some "http://endpoint") (some "key") "sannu"
        (AwarriCallOutcome.response
          { status_code := 200, text := "", base64_data := some "SGE=" }) 1).audio_base64 =
      some "SGE=" ∧
    display_audio_from_base64 (b64encode [72, 97]) = some [72, 97] :=
  audio_stored_as_base64 "sannu" "Hasan" [72, 97] 1 (some "http://endpoint")
    (some "key") "" "SGE=" 1 (by decide) rfl rfl

/-- C7 (amended): decoding then re-encoding the stored audio returns it
unchanged for every Spitch success, and for an Awarri success whose
`base64_data` is canonical base64 (an encoding of some byte string); a
non-canonical Awarri payload is stored as-is and need not round-trip. -/
theorem successful_audio_roundtrip (text voice : String) (bs bs2 : List Nat)
    (e : Rat) (url key : Option String) (body : String) (e2 : Rat)
    (hb : ∀ b ∈ bs, b < 256) (hb2 : ∀ b ∈ bs2, b < 256) :
    (∀ a ∈ (generate_spitch_audio text voice
        (SpitchCallOutcome.responseBytes bs) e).audio_base64,
      (b64decode a).map b64encode = some a) ∧
    (∀ a ∈ (generate_awarri_audio url key text
        (AwarriCallOutcome.response
          { status_code := 200, text := body, base64_data := some (b64encode bs2) })
        e2).audio_base64,
      (b64decode a).map b64encode = some a) := by
  constructor
  · intro a ha
    have hav : b64encode bs = a := by
      simpa [generate_spitch_audio] using ha
    subst hav
    rw [b64decode_b64encode bs hb]
    rfl
  · intro a ha
    cases hu : pyTruthyOptStr url with
    | false => simp [generate_awarri_audio, hu] at ha
    | true =>
      cases hk : pyTruthyOptStr key with
      | false => simp [generate_awarri_audio, hu, hk] at ha
      | true =>
        have hav : b64encode bs2 = a := by
          simpa [generate_awarri_audio, hu, hk] using ha
        subst hav
        rw [b64decode_b64encode bs2 hb2]
        rfl

/-- C7 witness: the Spitch result "SGE=" for bytes 72, 97 and the canonical
Awarri payload for bytes 0, 255 both round-trip unchanged. -/
theorem successful_audio_roundtrip_witness :
    (∀ a ∈ (generate_spitch_audio "sannu" "Hasan"
        (SpitchCallOutcome.responseBytes [72, 97]) 1).audio_base64,
      (b64decode a).map b64encode = some a) ∧
    (∀ a ∈ (generate_awarri_audio (some "http://endpoint") (some "key") "sannu"
        (AwarriCallOutcome.response
          { status_code := 200, text := "", base64_data := some (b64encode [0, 255]) })
        1).audio_base64,
      (b64decode a).map b64encode = some a) :=
  successful_audio_roundtrip "sannu" "Hasan" [72, 97] [0, 255] 1
    (some "http://endpoint") (some "key") "" 1 (by decide) (by decide)

/-- C7 counterexample: an Awarri success may store a base64 string whose
trailing sextet bits are non-zero, and such a string does not survive the
decode-then-encode round trip: "QR==" is stored as-is but re-encodes to
"QQ==". -/
theorem awarri_noncanonical_roundtrip_fails :
    (generate_awarri_audio (some "http://endpoint") (some "key") "sannu"
        (AwarriCallOutcome.response
          { status_code := 200, text := "", base64_data := some "QR==" })
        1).audio_base64 = some "QR==" ∧
    (b64decode "QR==").map b64encode = some "QQ==" ∧
    ("QQ==" : String) ≠ "QR==" := by
  refine ⟨by decide, by decide, by decide⟩

/-- C8: for non-blank text of at most 500 characters and an enumerated
voice, a successful Spitch generation stores a result whose voice is exactly
the requested voice and whose audio is the non-empty base64 encoding of the
response bytes. -/
theorem spitch_success_voice_and_audio (s : AppState) (text voice : String)
    (bs : List Nat) (e : Rat)
    (htext : pyStrip text ≠ "") (hlen : text.length ≤ 500)
    (hvoice : voice ∈ ["Hasan", "Amina", "Zainab", "Aliyu"])
    (hsucc : pyTruthyOptStr (generate_spitch_audio text voice
        (SpitchCallOutcome.responseBytes bs) e).audio_base64 = true) :
    (spitch_button_step s text voice (SpitchCallOutcome.responseBytes bs)
        e).current_spitch_audio =
      some { audio_base64 := b64encode bs, latency := e, text := text,
             voice := some voice } ∧
    b64encode bs ≠ "" := by
  have hne : b64encode bs ≠ "" := by
    intro hc
    rw [show (generate_spitch_audio text voice
          (SpitchCallOutcome.responseBytes bs) e).audio_base64 =
        some (b64encode bs) from rfl] at hsucc
    simp [pyTruthyOptStr, hc] at hsucc
  refine ⟨?_, hne⟩
  unfold spitch_button_step
  rw [if_neg htext, if_pos hsucc]
  simp [generate_spitch_audio]

/-- C8 witness: text "sannu" with voice "Hasan" and response bytes 72, 97
stores voice "Hasan" and the non-empty audio "SGE=". -/
theorem spitch_success_voice_and_audio_witness :
    (spitch_button_step initState "sannu" "Hasan"
        (SpitchCallOutcome.responseBytes [72, 97]) 1).current_spitch_audio =
      some { audio_base64 := b64encode [72, 97], latency := 1, text := "sannu",
             voice := some "Hasan" } ∧
    b64encode [72, 97] ≠ "" :=
  spitch_success_voice_and_audio initState "sannu" "Hasan" [72, 97] 1
    (by decide) (by decide) (by decide) (by decide)

/-- C9: every request issued by the Spitch adapter carries the lowercased
requested voice and the fixed Hausa language code "ha", and every POST
issued by the Awarri adapter carries JSON Accept and Content-Type headers
and exactly the body fields api_key, audio_txt (the input text) and
lang = "hausa". -/
theorem adapter_request_shapes (text voice : String) (o : SpitchCallOutcome)
    (e : Rat) (url key : Option String) (o2 : AwarriCallOutcome) (e2 : Rat) :
    (∀ req ∈ (generate_spitch_audio text voice o e).request,
      req.language = "ha" ∧ req.voice = pyLower voice ∧ req.text = text) ∧
    (∀ req ∈ (generate_awarri_audio url key text o2 e2).request,
      req.audio_txt = text ∧ req.lang = "hausa" ∧ some req.api_key = key ∧
      some req.url = url ∧
      req.headers = [("accept", "application/json"),
                     ("Content-Type", "application/json")]) := by
  constructor
  · intro req hreq
    cases o <;> simp [generate_spitch_audio] at hreq <;>
      simp [← hreq]
  · intro req hreq
    cases url with
    | none => simp [generate_awarri_audio, pyTruthyOptStr] at hreq
    | some u =>
      cases key with
      | none => simp [generate_awarri_audio, pyTruthyOptStr] at hreq
      | some k =>
        by_cases hu : u = ""
        · simp [generate_awarri_audio, pyTruthyOptStr, hu] at hreq
        · by_cases hk : k = ""
          · simp [generate_awarri_audio, pyTruthyOptStr, hk] at hreq
          · cases o2 with
            | raised msg =>
                simp [generate_awarri_audio, pyTruthyOptStr, hu, hk] at hreq
                simp [← hreq]
            | response r =>
                by_cases h200 : r.status_code = 200
                · cases hb : r.base64_data with
                  | none =>
                      simp [generate_awarri_audio, pyTruthyOptStr, hu, hk,
                        h200, hb] at hreq
                      simp [← hreq]
                  | some b =>
                      simp [generate_awarri_audio, pyTruthyOptStr, hu, hk,
                        h200, hb] at hreq
                      simp [← hreq]
                · simp [generate_awarri_audio, pyTruthyOptStr, hu, hk,
                    h200] at hreq
                  simp [← hreq]

/-- Concrete Spitch request used by the C9 witness. -/
def spitchReqW : SpitchRequest :=
  { text := "sannu", language := "ha", voice := "hasan" }

/-- Concrete Awarri request used by the C9 witness. -/
def awarriReqW : AwarriRequest :=
  { url := "http://endpoint",
    headers := [("accept", "application/json"),
                ("Content-Type", "application/json")],
    api_key := "key", audio_txt := "sannu", lang := "hausa" }

/-- C9 witness: the concrete requests issued for text "sannu", voice
"Hasan", a configured endpoint and key, and a 200 response. -/
theorem adapter_request_shapes_witness :
    (spitchReqW.language = "ha" ∧ spitchReqW.voice = pyLower "Hasan" ∧
     spitchReqW.text = "sannu") ∧
    (awarriReqW.audio_txt = "sannu" ∧ awarriReqW.lang = "hausa" ∧
     some awarriReqW.api_key = some "key" ∧
     some awarriReqW.url = some "http://endpoint" ∧
     awarriReqW.headers =
       [("accept", "application/json"), ("Content-Type", "application/json")]) :=
  ⟨(adapter_request_shapes "sannu" "Hasan" (SpitchCallOutcome.responseBytes [72]) 1
      (some "http://endpoint") (some "key")
      (AwarriCallOutcome.response
        { status_code := 200, text := "", base64_data := some "QQ==" }) 1).1
    spitchReqW (by decide),
   (adapter_request_shapes "sannu" "Hasan" (SpitchCallOutcome.responseBytes [72]) 1
      (some "http://endpoint") (some "key")
      (AwarriCallOutcome.response
        { status_code := 200, text := "", base64_data := some "QQ==" }) 1).2
    awarriReqW (by decide)⟩

/-- Each user interaction preserves the voice-field invariant. -/
theorem voice_invariant_step {s s' : AppState} (hstep : Step s s')
    (ih : voice_invariant s) : voice_invariant s' := by
  obtain ⟨ih1, ih2, ih3⟩ := ih
  cases hstep with
  | spitchGen text voice o e =>
      unfold spitch_button_step
      split
      · exact ⟨ih1, ih2, ih3⟩
      · dsimp only
        split
        · refine ⟨?_, ih2, ih3⟩
          intro d hd
          simp only [Option.mem_def, Option.some.injEq] at hd
          subst hd
          simp
        · exact ⟨ih1, ih2, ih3⟩
  | awarriGen url key text o e =>
      unfold awarri_button_step
      split
      · exact ⟨ih1, ih2, ih3⟩
      · dsimp only
        split
        · refine ⟨ih1, ?_, ih3⟩
          intro d hd
          simp only [Option.mem_def, Option.some.injEq] at hd
          subst hd
          rfl
        · exact ⟨ih1, ih2, ih3⟩
  | saveSpitch now =>
      unfold save_spitch_step
      cases hslot : s.current_spitch_audio with
      | none => exact ⟨ih1, ih2, ih3⟩
      | some d =>
          refine ⟨ih1, ih2, ?_⟩
          intro e he
          simp only [add_to_history, List.mem_cons] at he
          cases he with
          | inl hnew =>
              rw [hnew]
              constructor
              · intro _
                exact ih1 d (by rw [hslot]; rfl)
              · intro hmod
                simp at hmod
          | inr hold => exact ih3 e hold
  | saveAwarri now =>
      unfold save_awarri_step
      cases hslot : s.current_awarri_audio with
      | none => exact ⟨ih1, ih2, ih3⟩
      | some d =>
          refine ⟨ih1, ih2, ?_⟩
          intro e he
          simp only [add_to_history, List.mem_cons] at he
          cases he with
          | inl hnew =>
              rw [hnew]
              constructor
              · intro hmod
                simp at hmod
              · intro _
                rfl
          | inr hold => exact ih3 e hold
  | clear =>
      refine ⟨?_, ?_, ih3⟩ <;> simp [clear_current_display]

/-- C2 (amended): in every reachable session state, the Spitch slot's voice
is non-null, the Awarri slot's voice is null, and history entries carry a
non-null voice for Spitch but the literal non-null string "Default" (not
null) for Awarri. -/
theorem reachable_voice_invariant (s : AppState) (h : Reachable s) :
    voice_invariant s := by
  induction h with
  | init =>
      refine ⟨?_, ?_, ?_⟩ <;> simp [initState, voice_invariant]
  | step hr hstep ih => exact voice_invariant_step hstep ih

/-- Session state after one successful Awarri generation followed by a save,
used to witness the amended claim and to refute the original one. -/
def awarriSavedState : AppState :=
  save_awarri_step
    (awarri_button_step initState (some "http://endpoint") (some "key") "sannu"
      (AwarriCallOutcome.response
        { status_code := 200, text := "", base64_data := some "QUJD" }) 1)
    "2024-01-01 00:00:00"

/-- C2 witness: the voice invariant holds in the reachable state with one
saved Awarri generation. -/
theorem reachable_voice_invariant_witness : voice_invariant awarriSavedState :=
  reachable_voice_invariant awarriSavedState
    (Reachable.step
      (Reachable.step Reachable.init
        (Step.awarriGen initState (some "http://endpoint") (some "key") "sannu"
          (AwarriCallOutcome.response
            { status_code := 200, text := "", base64_data := some "QUJD" }) 1))
      (Step.saveAwarri _ "2024-01-01 00:00:00"))

/-- C2 counterexample: saving an Awarri result puts an entry with provider
"Awarri" and the non-null voice "Default" into the history, so the claim
"for Awarri the voice is null" fails for stored history entries. -/
theorem awarri_history_voice_not_null :
    awarriSavedState.audio_history.map (fun e => (e.model, e.voice)) =
      [("Awarri", some "Default")] ∧
    (some "Default" : Option String) ≠ none := by
  refine ⟨by decide, by decide⟩
